import Mathlib

/-!
# Verification of the uzum-payments dispatch and error-classification layer

Shallow embedding of `src/uzum_payments/connection.py`, `client.py` and
`exceptions.py`: the request dispatcher, the dual (blocking / suspending)
execution paths, and the error classifier mapping
(HTTP status, application error code, decoded body) to exception kinds.

Decoded JSON bodies are modelled by the inductive `Json` below (numeric JSON
values are modelled as integers: the API's `errorCode` is integral).
Python exceptions that the code can raise are modelled by `PyErr`; a Python
function that may raise returns `Except PyErr α`.  `json.loads` is the
standard library's parser (an external collaborator), modelled by its
outcome: `some data` when the body text is valid JSON decoding to `data`,
`none` when parsing fails.  Logging calls are side effects with no influence
on the returned value and are omitted.
-/

set_option autoImplicit false

namespace Uzum

/-- A decoded JSON value, as produced by `json.loads`.  Objects carry their
field list with unique keys (the decoder keeps one binding per key). -/
inductive Json where
  | null
  | bool (b : Bool)
  | num (n : Int)
  | str (s : String)
  | arr (elems : List Json)
  | obj (fields : List (String × Json))

/-- Whether the decoded value is a JSON object (a Python `dict`). -/
def Json.isObj : Json → Bool
  | .obj _ => true
  | _ => false

/-- Python truthiness of a decoded JSON value (`bool(x)`): `None`, `False`,
`0`, `""`, `[]` and `{}` are falsy, everything else truthy. -/
def Json.truthy : Json → Bool
  | .null => false
  | .bool b => b
  | .num n => n != 0
  | .str s => !s.isEmpty
  | .arr es => !es.isEmpty
  | .obj fs => !fs.isEmpty

/-- Python truthiness of an optional value: `None` (absent) is falsy. -/
def truthyOpt : Option Json → Bool
  | none => false
  | some j => j.truthy

/-- The closed set of `UzumCheckoutException` subclasses declared in
`exceptions.py` (the taxonomy tags of classified failures). -/
inductive ErrorKind where
  | badRequest
  | signatureError
  | fingerprintError
  | validationError
  | internalServerError
  | internalError
  | paymentErrors
  | authenticationError
  | unexpectedError
deriving DecidableEq

/-- A classified failure: an instance of a `UzumCheckoutException` subclass.
`__init__` stores `message.get('message') or message` in `self.message`
and the application error code in `self.code`. -/
structure UzumCheckoutException where
  kind : ErrorKind
  message : Json
  code : Option Json

/-- The Python exceptions relevant to the dispatch layer.  `typeError` and
`attributeError` are the builtin `TypeError` / `AttributeError`;
`jsonDecodeError` is `json.JSONDecodeError`; `notResponding` and
`networkError` are the library's own transport-failure exceptions; the
remaining constructors are the transport libraries' exception classes
(`requests.Timeout`, `requests.ConnectionError`, `asyncio.TimeoutError`,
`aiohttp.ClientConnectorError`, `aiohttp.ServerDisconnectedError`). -/
inductive PyErr where
  | typeError
  | attributeError
  | jsonDecodeError
  | uzum (exc : UzumCheckoutException)
  | notResponding
  | networkError
  | requestsTimeout
  | requestsConnectionError
  | asyncioTimeout
  | aiohttpClientConnectorError
  | aiohttpServerDisconnected

/-- The taxonomy tag of a classified failure, `none` for any other
exception. -/
def PyErr.uzumKind : PyErr → Option ErrorKind
  | .uzum e => some e.kind
  | _ => none

/-- Whether the exception is one of the raw transport-library exceptions
(the ones `send` is supposed to translate, never propagate). -/
def PyErr.isRawTransport : PyErr → Bool
  | .requestsTimeout => true
  | .requestsConnectionError => true
  | .asyncioTimeout => true
  | .aiohttpClientConnectorError => true
  | .aiohttpServerDisconnected => true
  | _ => false

/-- Whether the exception is the library's `NetworkError`. -/
def PyErr.isNetworkError : PyErr → Bool
  | .networkError => true
  | _ => false

/-- Whether the exception is `json.JSONDecodeError`. -/
def PyErr.isJsonDecodeError : PyErr → Bool
  | .jsonDecodeError => true
  | _ => false

/-- `data.get(key)` on a decoded value: returns the bound value or `None`
when the key is absent; raises `AttributeError` when `data` is not a
`dict` (non-object JSON has no `.get`). -/
def Json.dictGet : Json → String → Except PyErr (Option Json)
  | .obj fs, k => .ok ((fs.find? (fun p => p.1 == k)).map (·.2))
  | _, _ => .error .attributeError

/-- Python `error_code >= bound` where `error_code` is a decoded JSON value
or `None`: defined for numbers (and booleans, which are ints in Python),
a `TypeError` for `None` and every non-numeric value. -/
def pyGe (v : Option Json) (bound : Int) : Except PyErr Bool :=
  match v with
  | some (.num n) => .ok (decide (bound ≤ n))
  | some (.bool b) => .ok (decide (bound ≤ (if b then (1 : Int) else 0)))
  | _ => .error .typeError

/-- `UzumCheckoutException.__init__(message, code)` from `exceptions.py`:
`self.message = message.get('message') or message` (the body's `message`
field when present and truthy, otherwise the whole body) and
`self.code = code`.  Raising the exception yields the corresponding
`PyErr`; `message.get` itself raises on a non-object body. -/
def mkUzum (kind : ErrorKind) (message : Json) (code : Option Json) : PyErr :=
  match message.dictGet "message" with
  | .error e => e
  | .ok none => .uzum ⟨kind, message, code⟩
  | .ok (some m) => .uzum ⟨kind, if m.truthy then m else message, code⟩

/-- `raise_error(data, error_code, status_code)` from `connection.py`
(lines 68-89): five explicit HTTP-status checks first, then the
application-error-code bands.  The band comparisons apply Python `>=` to
`error_code`, so an absent (`None`) or non-numeric code raises
`TypeError` there.  The value returned is the exception the Python
function raises (it never returns normally). -/
def raise_error (data : Json) (error_code : Option Json) (status_code : Int) : PyErr :=
  if status_code = 400 then mkUzum .badRequest data error_code
  else if status_code = 401 then mkUzum .signatureError data error_code
  else if status_code = 403 then mkUzum .fingerprintError data error_code
  else if status_code = 422 then mkUzum .validationError data error_code
  else if status_code = 500 then mkUzum .internalServerError data error_code
  else
    match pyGe error_code 5000 with
    | .error e => e
    | .ok true => mkUzum .internalError data error_code
    | .ok false =>
      match pyGe error_code 3000 with
      | .error e => e
      | .ok true => mkUzum .paymentErrors data error_code
      | .ok false =>
        match pyGe error_code 2000 with
        | .error e => e
        | .ok true => mkUzum .validationError data error_code
        | .ok false =>
          match pyGe error_code 1000 with
          | .error e => e
          | .ok true => mkUzum .authenticationError data error_code
          | .ok false => mkUzum .unexpectedError data error_code

namespace Connection

/-- `Connection._raise_for_status(resp, text, method)` from `connection.py`
(lines 24-41), as a function of the response's status code and of the
outcome of `json.loads(text)` (`none` = the body text is not valid JSON).
On a parse failure the code executes `raise json.JSONDecodeError`, which
instantiates the exception class with no arguments; `JSONDecodeError.__init__`
requires `(msg, doc, pos)`, so what actually propagates is a `TypeError`.
Otherwise: success iff `not error_code and status_code == 200`, else the
exception computed by `raise_error`. -/
def raise_for_status (status_code : Int) (parsed : Option Json) : Except PyErr Json :=
  match parsed with
  | none => .error .typeError
  | some data =>
    match data.dictGet "errorCode" with
    | .error e => .error e
    | .ok error_code =>
      if !truthyOpt error_code && status_code = 200 then .ok data
      else .error (raise_error data error_code status_code)

end Connection

namespace ApiClient

/-- `ApiClient._raise_for_status(resp, text, method)` from `client.py`
(lines 286-307), as a function of the response's status code and of the
outcome of `json.loads(text)`.  The status code is received but never
consulted (the method reads only the decoded body): success iff
`not error_code`, else the band classification — there are no
HTTP-status checks on this path.  The decode-failure branch is the same
`raise json.JSONDecodeError` slip as on the `Connection` path. -/
def raise_for_status (_status_code : Int) (parsed : Option Json) : Except PyErr Json :=
  match parsed with
  | none => .error .typeError
  | some data =>
    match data.dictGet "errorCode" with
    | .error e => .error e
    | .ok error_code =>
      if !truthyOpt error_code then .ok data
      else
        .error <|
          match pyGe error_code 5000 with
          | .error e => e
          | .ok true => mkUzum .internalError data error_code
          | .ok false =>
            match pyGe error_code 3000 with
            | .error e => e
            | .ok true => mkUzum .paymentErrors data error_code
            | .ok false =>
              match pyGe error_code 2000 with
              | .error e => e
              | .ok true => mkUzum .validationError data error_code
              | .ok false =>
                match pyGe error_code 1000 with
                | .error e => e
                | .ok true => mkUzum .authenticationError data error_code
                | .ok false => mkUzum .unexpectedError data error_code

end ApiClient

/-! ## Request construction and the dual execution paths -/

/-- The outgoing HTTP request handed to the transport session:
`session.request(url=url, method=method, headers=self.headers, json=data)`. -/
structure RequestEnvelope where
  url : String
  method : String
  headers : List (String × String)
  body : Option Json

namespace Connection

/-- The request issued by `Connection._request(url, data, method)`
(`connection.py` line 45): the transport call inside the `try` block. -/
def request_envelope (headers : List (String × String)) (url : String)
    (data : Option Json) (method : String) : RequestEnvelope :=
  ⟨url, method, headers, data⟩

/-- The request issued by `Connection._async_request(url, data, method)`
(`connection.py` line 54). -/
def async_request_envelope (headers : List (String × String)) (url : String)
    (data : Option Json) (method : String) : RequestEnvelope :=
  ⟨url, method, headers, data⟩

/-- `Connection._request_model(url, data, method)` (`connection.py` lines
61-65), seen through the request each branch issues: the async branch is
`self._async_request(url, data, method)`; the sync branch is
`self._request(url, data)`, so there `method` falls back to the
parameter default `'POST'`. -/
def request_model_envelope (is_async : Bool) (headers : List (String × String))
    (url : String) (data : Option Json) (method : String) : RequestEnvelope :=
  if is_async then async_request_envelope headers url data method
  else request_envelope headers url data "POST"

end Connection

namespace ApiClient

/-- `ApiClient._post_model(url, data)` (`client.py` lines 328-332), seen
through the request each branch issues: both `_post` and `_async_post`
call `session.post(url, headers=self.headers, json=data)`. -/
def post_model_envelope (_is_async : Bool) (headers : List (String × String))
    (url : String) (data : Option Json) : RequestEnvelope :=
  ⟨url, "POST", headers, data⟩

end ApiClient

/-! ## Transport events

What the transport layer does while the dispatcher awaits the response.
The exception each library raises for each event is the library's
documented behavior (an external collaborator): `requests` signals both a
refused and a reset connection as `requests.ConnectionError` and a timeout
as `requests.Timeout`; `aiohttp` signals a timeout as
`asyncio.TimeoutError`, a connection refused before any response as
`aiohttp.ClientConnectorError`, and a server disconnect as
`aiohttp.ServerDisconnectedError` (the class named in `NetworkError`'s own
docstring). -/

/-- A transport-level event observed while awaiting the response: a raw
response (status code plus the `json.loads` outcome for its body text),
a timeout, a connection refused, or a connection reset. -/
inductive TransportEvent where
  | response (status : Int) (parsed : Option Json)
  | timeout
  | connRefused
  | connReset

/-- The blocking transport (`requests.Session`): the response, or the
exception the library raises for the event. -/
def syncTransport : TransportEvent → Except PyErr (Int × Option Json)
  | .response s b => .ok (s, b)
  | .timeout => .error .requestsTimeout
  | .connRefused => .error .requestsConnectionError
  | .connReset => .error .requestsConnectionError

/-- The suspending transport (`aiohttp.ClientSession`): the response, or
the exception the library raises for the event. -/
def asyncTransport : TransportEvent → Except PyErr (Int × Option Json)
  | .response s b => .ok (s, b)
  | .timeout => .error .asyncioTimeout
  | .connRefused => .error .aiohttpClientConnectorError
  | .connReset => .error .aiohttpServerDisconnected

namespace Connection

/-- The outcome of `Connection._request` (`connection.py` lines 43-50) for
a given transport event: the `try` body runs `_raise_for_status` on the
response; `except requests.Timeout` raises `NotResponding`,
`except requests.ConnectionError` raises `NetworkError`; any other
exception propagates unchanged. -/
def request_outcome (ev : TransportEvent) : Except PyErr Json :=
  match syncTransport ev with
  | .ok (s, b) => raise_for_status s b
  | .error .requestsTimeout => .error .notResponding
  | .error .requestsConnectionError => .error .networkError
  | .error e => .error e

/-- The outcome of `Connection._async_request` (`connection.py` lines
52-59) for a given transport event: `except asyncio.TimeoutError` raises
`NotResponding`, `except aiohttp.ServerDisconnectedError` raises
`NetworkError`; any other exception — including
`aiohttp.ClientConnectorError` — propagates unchanged. -/
def async_request_outcome (ev : TransportEvent) : Except PyErr Json :=
  match asyncTransport ev with
  | .ok (s, b) => raise_for_status s b
  | .error .asyncioTimeout => .error .notResponding
  | .error .aiohttpServerDisconnected => .error .networkError
  | .error e => .error e

end Connection

/-! ## Header construction (`ApiClient.__init__`, `client.py` lines 47-67) -/

namespace ApiClient

/-- One `if credential: headers.update({name: credential})` step: the
header is added exactly when the optional value is supplied and truthy
(a non-empty string). -/
def addIfTruthy (headers : List (String × String)) (name : String) :
    Option String → List (String × String)
  | none => headers
  | some v => if v.isEmpty then headers else headers ++ [(name, v)]

/-- The fixed header map assembled first in `ApiClient.__init__`
(`client.py` lines 47-55). -/
def baseHeaders (signature terminal_id content_language : String) :
    List (String × String) :=
  [("X-Signature", signature),
   ("Content-Language", content_language),
   ("X-Terminal-Id", terminal_id),
   ("Accept", "application/json"),
   ("Accept-Encoding", "gzip,deflate,sdch"),
   ("Cache-Control", "no-cache"),
   ("Content-Type", "application/json")]

/-- The headers built by `ApiClient.__init__`: the fixed base map, then
the three conditional credential headers in source order. -/
def buildHeaders (signature terminal_id content_language : String)
    (merchant_access_token fingerprint api_key : Option String) :
    List (String × String) :=
  addIfTruthy
    (addIfTruthy
      (addIfTruthy (baseHeaders signature terminal_id content_language)
        "X-Merchant-Access-Token" merchant_access_token)
      "X-Fingerprint" fingerprint)
    "X-API-Key" api_key

/-- How many headers with the given name a header list carries. -/
def countKey (headers : List (String × String)) (name : String) : Nat :=
  (headers.filter (fun p => p.1 == name)).length

end ApiClient

/-! ## Session lifecycle (`close`) -/

/-- The transport session handle, reduced to its lifecycle state.  The
transport libraries' documented contract (external collaborators):
`requests.Session.close()` and `aiohttp.ClientSession.close()` are total
and idempotent — closing an already-closed or never-used session is a
no-op and never raises. -/
structure Session where
  closed : Bool
deriving DecidableEq

/-- `session.close()` under the transport contract above. -/
def Session.close (_s : Session) : Session :=
  ⟨true⟩

/-- `ApiClient.close` / `Connection.close` (`client.py` lines 121-122,
`connection.py` lines 21-22): `return self.session.close()`.  The
dispatcher adds nothing of its own; being a total function, it raises on
no session state. -/
def closeClient (s : Session) : Session :=
  s.close

/-! ## Auxiliary definitions used by the statements -/

/-- The taxonomy tag of the failure carried by a call outcome, `none` on
success or on a non-classified exception. -/
def excKind : Except PyErr Json → Option ErrorKind
  | .error e => e.uzumKind
  | .ok _ => none

/-- Python truthiness of an optional string (`if x:` on an
`Optional[str]`): `None` and the empty string are falsy. -/
def strTruthy : Option String → Bool
  | none => false
  | some s => !s.isEmpty

/-- A decoded error body carrying `appErrorCode = 4000` and no other field. -/
def body4000 : Json := .obj [("errorCode", .num 4000)]

/-- A decoded body carrying `errorCode = 0` and no other field. -/
def bodyEc0 : Json := .obj [("errorCode", .num 0)]

/-- The nested `result` object of the spec's concrete success body. -/
def successResult : Json := .obj [("orderId", .str "X")]

/-- The spec's concrete success body
`{"errorCode": 0, "result": {"orderId": "X"}}`. -/
def successBody : Json := .obj [("errorCode", .num 0), ("result", successResult)]

/-- A decoded error body with `appErrorCode = 3000` and no `message` field. -/
def body3000 : Json := .obj [("errorCode", .num 3000)]

/-- A decoded error body with a truthy `message` field. -/
def bodyWithMessage : Json := .obj [("message", .str "oops"), ("errorCode", .num 3000)]

/-! ## Helper lemmas -/

/-- A value is a JSON object exactly when it is built by `Json.obj`. -/
theorem Json.isObj_iff (j : Json) : j.isObj = true ↔ ∃ fs, j = .obj fs := by
  cases j <;> simp [Json.isObj]

/-- The only exception `dict.get` can raise is `AttributeError`. -/
theorem Json.dictGet_error (j : Json) (k : String) (e : PyErr)
    (h : j.dictGet k = .error e) : e = .attributeError := by
  cases j <;> simp [Json.dictGet] at h <;> exact h.symm

/-- The only exception the Python `>=` on the error code can raise is
`TypeError`. -/
theorem pyGe_error (v : Option Json) (bound : Int) (e : PyErr)
    (h : pyGe v bound = .error e) : e = .typeError := by
  rcases v with _ | j
  · simpa [pyGe] using h.symm
  · cases j <;> simp [pyGe] at h <;> exact h.symm

/-- On an object body, the constructed exception always carries the
requested taxonomy tag. -/
theorem mkUzum_uzumKind (fields : List (String × Json)) (kind : ErrorKind)
    (code : Option Json) : (mkUzum kind (.obj fields) code).uzumKind = some kind := by
  unfold mkUzum
  simp only [Json.dictGet]
  cases (fields.find? (fun p => p.1 == "message")).map (·.2) with
  | none => rfl
  | some m => dsimp only; split <;> rfl

/-- Constructed exceptions are never raw transport exceptions. -/
theorem mkUzum_not_raw (kind : ErrorKind) (data : Json) (code : Option Json) :
    (mkUzum kind data code).isRawTransport = false := by
  unfold mkUzum
  cases data <;> try rfl
  case obj fs =>
    simp only [Json.dictGet]
    cases (fs.find? (fun p => p.1 == "message")).map (·.2) with
    | none => rfl
    | some m => dsimp only; split <;> rfl

/-- The classifier `raise_error` never raises a raw transport exception:
every exception it produces is a `UzumCheckoutException` or one of the
builtin `TypeError` / `AttributeError`. -/
theorem raise_error_not_raw (data : Json) (ec : Option Json) (status : Int) :
    (raise_error data ec status).isRawTransport = false := by
  unfold raise_error
  split_ifs <;> try exact mkUzum_not_raw ..
  rcases ec with _ | j
  · rfl
  cases j with
  | null => rfl
  | str s => rfl
  | arr es => rfl
  | obj fs => rfl
  | bool b => cases b <;> exact mkUzum_not_raw ..
  | num n =>
    by_cases h5 : (5000 : Int) ≤ n
    · have e5 : pyGe (some (Json.num n)) 5000 = .ok true := by simp [pyGe, h5]
      rw [e5]; exact mkUzum_not_raw ..
    have e5 : pyGe (some (Json.num n)) 5000 = .ok false := by simp [pyGe, h5]
    rw [e5]
    by_cases h3 : (3000 : Int) ≤ n
    · have e3 : pyGe (some (Json.num n)) 3000 = .ok true := by simp [pyGe, h3]
      rw [e3]; exact mkUzum_not_raw ..
    have e3 : pyGe (some (Json.num n)) 3000 = .ok false := by simp [pyGe, h3]
    rw [e3]
    by_cases h2 : (2000 : Int) ≤ n
    · have e2 : pyGe (some (Json.num n)) 2000 = .ok true := by simp [pyGe, h2]
      rw [e2]; exact mkUzum_not_raw ..
    have e2 : pyGe (some (Json.num n)) 2000 = .ok false := by simp [pyGe, h2]
    rw [e2]
    by_cases h1 : (1000 : Int) ≤ n
    · have e1 : pyGe (some (Json.num n)) 1000 = .ok true := by simp [pyGe, h1]
      rw [e1]; exact mkUzum_not_raw ..
    have e1 : pyGe (some (Json.num n)) 1000 = .ok false := by simp [pyGe, h1]
    rw [e1]
    exact mkUzum_not_raw ..

/-- Failures produced by the response handler are never raw transport
exceptions. -/
theorem raise_for_status_not_raw (status : Int) (parsed : Option Json) (e : PyErr)
    (h : Connection.raise_for_status status parsed = .error e) :
    e.isRawTransport = false := by
  unfold Connection.raise_for_status at h
  split at h
  · cases h
    rfl
  · split at h
    · rename_i data e' hd
      cases h
      rw [Json.dictGet_error _ _ _ hd]
      rfl
    · split at h
      · cases h
      · cases h
        exact raise_error_not_raw ..

/-! ## Claims -/

/-- C1 (amended): for the `Connection` classifier `raise_error`, an HTTP
status of 400/401/403/422/500 alone determines the error kind —
BadRequest / SignatureInvalid / FingerprintInvalid / ValidationFailed /
ServerFault — regardless of the application error code in the body.
(The `ApiClient` classifier ignores the HTTP status entirely, see the
counterexample.) -/
theorem c1_status_precedence (data : Json) (error_code : Option Json)
    (h : data.isObj = true) :
    (raise_error data error_code 400).uzumKind = some .badRequest ∧
    (raise_error data error_code 401).uzumKind = some .signatureError ∧
    (raise_error data error_code 403).uzumKind = some .fingerprintError ∧
    (raise_error data error_code 422).uzumKind = some .validationError ∧
    (raise_error data error_code 500).uzumKind = some .internalServerError := by
  obtain ⟨fs, rfl⟩ := (Json.isObj_iff data).mp h
  refine ⟨?_, ?_, ?_, ?_, ?_⟩ <;>
    simp [raise_error] <;> exact mkUzum_uzumKind ..

/-- C1 witness: at HTTP status 401 with `appErrorCode = 4000`, the
`Connection` classifier yields SignatureInvalid. -/
theorem c1_witness :
    (raise_error (Json.obj []) (some (Json.num 4000)) 401).uzumKind =
      some ErrorKind.signatureError :=
  (c1_status_precedence (Json.obj []) (some (Json.num 4000)) rfl).2.1

/-- C1 counterexample: the `ApiClient` classifier at HTTP status 401 with
body `{"errorCode": 4000}` yields PaymentRejected, not SignatureInvalid —
it never consults the HTTP status. -/
theorem c1_counterexample :
    excKind (ApiClient.raise_for_status 401 (some body4000)) =
        some ErrorKind.paymentErrors ∧
    ErrorKind.paymentErrors ≠ ErrorKind.signatureError :=
  ⟨rfl, by decide⟩

/-- C3 (code-bug exhibit): with HTTP status 404 and a body carrying no
`errorCode`, the classifier raises a builtin `TypeError` (the Python
comparison `None >= 5000`), not the taxonomy's UnclassifiedError: the
path returns no `UzumCheckoutException` at all. -/
theorem c3_absent_code_type_error :
    Connection.raise_for_status 404 (some (Json.obj [])) = .error PyErr.typeError ∧
    (Json.obj []).dictGet "errorCode" = .ok none ∧
    PyErr.typeError.uzumKind = none :=
  ⟨rfl, rfl, rfl⟩

/-- C4 (code-bug exhibit): for `method = 'GET'` the blocking branch of
`_request_model` issues a POST (the `method` argument is not forwarded to
`_request`, whose default is `'POST'`) while the suspending branch issues
a GET — the two modes do not send the same HTTP method.  Given an
identical raw response, however, the two branches do produce the
identical classified outcome. -/
theorem c4_method_divergence :
    (Connection.request_model_envelope false [] "health" none "GET").method = "POST" ∧
    (Connection.request_model_envelope true [] "health" none "GET").method = "GET" ∧
    ∀ (status : Int) (parsed : Option Json),
      Connection.request_outcome (.response status parsed) =
        Connection.async_request_outcome (.response status parsed) :=
  ⟨rfl, rfl, fun _ _ => rfl⟩

/-- C6 (amended): a transport timeout resolves to NotResponding in both
modes; a connectivity failure resolves to NetworkUnavailable in blocking
mode (refused or reset) and, in suspending mode, for a server disconnect
(reset); the blocking path never leaks a raw transport exception, and the
suspending response path never produces one.  (A connection refused in
suspending mode escapes as the raw `aiohttp` exception — see the
counterexample.) -/
theorem c6_transport_translation :
    Connection.request_outcome .timeout = .error .notResponding ∧
    Connection.async_request_outcome .timeout = .error .notResponding ∧
    Connection.request_outcome .connRefused = .error .networkError ∧
    Connection.request_outcome .connReset = .error .networkError ∧
    Connection.async_request_outcome .connReset = .error .networkError ∧
    (∀ (ev : TransportEvent) (e : PyErr),
      Connection.request_outcome ev = .error e → e.isRawTransport = false) ∧
    (∀ (status : Int) (parsed : Option Json) (e : PyErr),
      Connection.async_request_outcome (.response status parsed) = .error e →
        e.isRawTransport = false) := by
  refine ⟨rfl, rfl, rfl, rfl, rfl, ?_, ?_⟩
  · intro ev e h
    cases ev with
    | response s b => exact raise_for_status_not_raw s b e h
    | timeout => cases h; rfl
    | connRefused => cases h; rfl
    | connReset => cases h; rfl
  · intro s b e h
    exact raise_for_status_not_raw s b e h

/-- C6 witness: the blocking path translates a timeout into the library's
`NotResponding`, which is not a raw transport exception. -/
theorem c6_witness : PyErr.notResponding.isRawTransport = false :=
  c6_transport_translation.2.2.2.2.2.1 .timeout .notResponding rfl

/-- C6 counterexample: in suspending mode a connection refused before any
response escapes as the raw `aiohttp.ClientConnectorError` — only
`ServerDisconnectedError` is caught — instead of resolving to
NetworkUnavailable. -/
theorem c6_counterexample :
    Connection.async_request_outcome .connRefused =
        .error .aiohttpClientConnectorError ∧
    PyErr.aiohttpClientConnectorError.isRawTransport = true ∧
    PyErr.aiohttpClientConnectorError.isNetworkError = false :=
  ⟨rfl, rfl, rfl⟩

/-- C7 (code-bug exhibit): on a body that is not valid JSON (with any
status, here 200), both response handlers produce a builtin `TypeError` —
`raise json.JSONDecodeError` instantiates the exception class without its
required `(msg, doc, pos)` arguments — not a `json.JSONDecodeError`.
The failure is still not folded into any classified kind. -/
theorem c7_decode_failure :
    Connection.raise_for_status 200 none = .error PyErr.typeError ∧
    ApiClient.raise_for_status 200 none = .error PyErr.typeError ∧
    PyErr.typeError.isJsonDecodeError = false ∧
    PyErr.typeError.uzumKind = none :=
  ⟨rfl, rfl, rfl, rfl⟩

/-- C2 (amended): on the `Connection` path a call settles as Success with
the decoded body exactly when the HTTP status is 200 and the body's
`errorCode` is absent or falsy (zero); on the `ApiClient` path the HTTP
status is ignored and Success occurs exactly when `errorCode` is absent
or falsy, whatever the status.  For the concrete success case — status
200, body `{"errorCode": 0, "result": {"orderId": "X"}}` — the returned
body's `result.orderId` is `"X"`. -/
theorem c2_success_criterion :
    (∀ (status : Int) (data r : Json),
      Connection.raise_for_status status (some data) = .ok r ↔
        ∃ ec, data.dictGet "errorCode" = .ok ec ∧ truthyOpt ec = false ∧
          status = 200 ∧ r = data) ∧
    (∀ (status : Int) (data r : Json),
      ApiClient.raise_for_status status (some data) = .ok r ↔
        ∃ ec, data.dictGet "errorCode" = .ok ec ∧ truthyOpt ec = false ∧
          r = data) ∧
    Connection.raise_for_status 200 (some successBody) = .ok successBody ∧
    successBody.dictGet "result" = .ok (some successResult) ∧
    successResult.dictGet "orderId" = .ok (some (.str "X")) := by
  refine ⟨?_, ?_, rfl, rfl, rfl⟩
  · intro status data r
    unfold Connection.raise_for_status
    constructor
    · intro h
      dsimp only at h
      split at h
      · exact absurd h (by simp)
      rename_i error_code heq
      split at h
      · rename_i hc
        injection h with h
        obtain ⟨h1, h2⟩ := Bool.and_eq_true _ _ |>.mp hc
        exact ⟨error_code, heq, Bool.not_eq_true' .. |>.mp h1,
          of_decide_eq_true h2, h.symm⟩
      · exact absurd h (by simp)
    · rintro ⟨ec, hec, hft, hst, rfl⟩
      dsimp only
      rw [hec]
      dsimp only
      have hc : (!truthyOpt ec && decide (status = 200)) = true := by
        rw [hft, hst]; rfl
      rw [if_pos hc]
  · intro status data r
    unfold ApiClient.raise_for_status
    constructor
    · intro h
      dsimp only at h
      split at h
      · exact absurd h (by simp)
      rename_i error_code heq
      split at h
      · rename_i hc
        injection h with h
        exact ⟨error_code, heq, Bool.not_eq_true' .. |>.mp hc, h.symm⟩
      · exact absurd h (by simp)
    · rintro ⟨ec, hec, hft, rfl⟩
      dsimp only
      rw [hec]
      dsimp only
      have hc : (!truthyOpt ec) = true := by rw [hft]; rfl
      rw [if_pos hc]

/-- C2 witness: the Connection path applied at status 200 to the concrete
success body settles as Success carrying that body. -/
theorem c2_witness :
    Connection.raise_for_status 200 (some successBody) = .ok successBody :=
  (c2_success_criterion.1 200 successBody successBody).mpr
    ⟨some (Json.num 0), rfl, rfl, rfl, rfl⟩

/-- C2 counterexample: on the `ApiClient` path an HTTP 500 response whose
body is `{"errorCode": 0}` is returned as a Success outcome — not a
classified failure — because that path never consults the HTTP status. -/
theorem c2_counterexample :
    ApiClient.raise_for_status 500 (some bodyEc0) = .ok bodyEc0 := rfl

/-- C5: when the HTTP status matches none of 400/401/403/422/500, a
present integer application error code is classified into half-open
bands: `>= 5000` RemoteInternalError; `[3000, 5000)` PaymentRejected;
`[2000, 3000)` ValidationFailed; `[1000, 2000)` AuthenticationFailed;
anything below 1000 UnclassifiedError. -/
theorem c5_bands (fields : List (String × Json)) (n status : Int)
    (h400 : status ≠ 400) (h401 : status ≠ 401) (h403 : status ≠ 403)
    (h422 : status ≠ 422) (h500 : status ≠ 500) :
    (5000 ≤ n →
      (raise_error (.obj fields) (some (.num n)) status).uzumKind =
        some .internalError) ∧
    (3000 ≤ n → n < 5000 →
      (raise_error (.obj fields) (some (.num n)) status).uzumKind =
        some .paymentErrors) ∧
    (2000 ≤ n → n < 3000 →
      (raise_error (.obj fields) (some (.num n)) status).uzumKind =
        some .validationError) ∧
    (1000 ≤ n → n < 2000 →
      (raise_error (.obj fields) (some (.num n)) status).uzumKind =
        some .authenticationError) ∧
    (n < 1000 →
      (raise_error (.obj fields) (some (.num n)) status).uzumKind =
        some .unexpectedError) := by
  have e5 : ∀ b : Int, pyGe (some (Json.num n)) b = .ok (decide (b ≤ n)) :=
    fun _ => rfl
  refine ⟨?_, ?_, ?_, ?_, ?_⟩
  · intro hb
    unfold raise_error
    rw [if_neg h400, if_neg h401, if_neg h403, if_neg h422, if_neg h500, e5,
      decide_eq_true hb]
    exact mkUzum_uzumKind ..
  · intro hb hb'
    unfold raise_error
    rw [if_neg h400, if_neg h401, if_neg h403, if_neg h422, if_neg h500, e5,
      decide_eq_false (by omega), e5, decide_eq_true hb]
    exact mkUzum_uzumKind ..
  · intro hb hb'
    unfold raise_error
    rw [if_neg h400, if_neg h401, if_neg h403, if_neg h422, if_neg h500, e5,
      decide_eq_false (by omega), e5, decide_eq_false (by omega), e5,
      decide_eq_true hb]
    exact mkUzum_uzumKind ..
  · intro hb hb'
    unfold raise_error
    rw [if_neg h400, if_neg h401, if_neg h403, if_neg h422, if_neg h500, e5,
      decide_eq_false (by omega), e5, decide_eq_false (by omega), e5,
      decide_eq_false (by omega), e5, decide_eq_true hb]
    exact mkUzum_uzumKind ..
  · intro hb
    unfold raise_error
    rw [if_neg h400, if_neg h401, if_neg h403, if_neg h422, if_neg h500, e5,
      decide_eq_false (by omega), e5, decide_eq_false (by omega), e5,
      decide_eq_false (by omega), e5, decide_eq_false (by omega)]
    exact mkUzum_uzumKind ..

/-- C5 witness: with status 404, `appErrorCode = 1000` classifies as
AuthenticationFailed. -/
theorem c5_witness :
    (raise_error (Json.obj []) (some (Json.num 1000)) 404).uzumKind =
      some ErrorKind.authenticationError :=
  (c5_bands [] 1000 404 (by decide) (by decide) (by decide) (by decide)
    (by decide)).2.2.2.1 (by decide) (by decide)

/-- The exception constructor stores the code argument verbatim and, as
the message, the body's truthy `message` field or else the whole body. -/
theorem mkUzum_fields (kind : ErrorKind) (data : Json) (code : Option Json)
    (exc : UzumCheckoutException) (h : mkUzum kind data code = .uzum exc) :
    exc.code = code ∧ exc.kind = kind ∧
    (data.dictGet "message" = .ok none → exc.message = data) ∧
    (∀ m, data.dictGet "message" = .ok (some m) →
      exc.message = if m.truthy then m else data) := by
  unfold mkUzum at h
  split at h
  · rename_i e hm
    rw [Json.dictGet_error _ _ _ hm] at h
    cases h
  · rename_i hm
    cases h
    refine ⟨rfl, rfl, fun _ => rfl, fun m hm2 => ?_⟩
    rw [hm] at hm2
    cases hm2
  · rename_i m hm
    cases h
    refine ⟨rfl, rfl, fun hm2 => ?_, fun m' hm2 => ?_⟩
    · rw [hm] at hm2
      cases hm2
    · rw [hm] at hm2
      injection hm2 with hm3
      injection hm3 with hm4
      rw [hm4]

/-- Every classified failure raised by `raise_error` is built by the
exception constructor from the original body and code arguments. -/
theorem raise_error_uzum (data : Json) (ec : Option Json) (status : Int)
    (exc : UzumCheckoutException) (h : raise_error data ec status = .uzum exc) :
    ∃ kind, mkUzum kind data ec = .uzum exc := by
  unfold raise_error at h
  split_ifs at h <;> try exact ⟨_, h⟩
  split at h
  · rename_i e h5
    rw [pyGe_error _ _ _ h5] at h
    cases h
  · exact ⟨_, h⟩
  split at h
  · rename_i e h3
    rw [pyGe_error _ _ _ h3] at h
    cases h
  · exact ⟨_, h⟩
  split at h
  · rename_i e h2
    rw [pyGe_error _ _ _ h2] at h
    cases h
  · exact ⟨_, h⟩
  split at h
  · rename_i e h1
    rw [pyGe_error _ _ _ h1] at h
    cases h
  · exact ⟨_, h⟩
  · exact ⟨_, h⟩

/-- C8 (amended): every classified failure carries the raw appErrorCode
verbatim as its `code` and, as its `message`, the body's `message` field
when that field is present and truthy, otherwise the whole decoded body.
A body with a truthy `message` field is therefore represented on the
exception only by that field, not retained whole (see the
counterexample). -/
theorem c8_failure_payload (data : Json) (ec : Option Json) (status : Int)
    (exc : UzumCheckoutException) (h : raise_error data ec status = .uzum exc) :
    exc.code = ec ∧
    (data.dictGet "message" = .ok none → exc.message = data) ∧
    (∀ m, data.dictGet "message" = .ok (some m) →
      exc.message = if m.truthy then m else data) := by
  obtain ⟨kind, hk⟩ := raise_error_uzum data ec status exc h
  obtain ⟨h1, _, h3, h4⟩ := mkUzum_fields kind data ec exc hk
  exact ⟨h1, h3, h4⟩

/-- C8 witness: the failure classified from the body
`{"errorCode": 3000}` at status 404 carries `code = 3000`. -/
theorem c8_witness :
    (UzumCheckoutException.mk ErrorKind.paymentErrors body3000
        (some (Json.num 3000))).code = some (Json.num 3000) :=
  (c8_failure_payload body3000 (some (Json.num 3000)) 404 _ rfl).1

/-- C8 counterexample: for the body
`{"message": "oops", "errorCode": 3000}` the classified failure carries
only the string `"oops"` as its message — the original decoded body (an
object) is not retained on the exception. -/
theorem c8_counterexample :
    raise_error bodyWithMessage (some (Json.num 3000)) 404 =
      .uzum ⟨.paymentErrors, .str "oops", some (Json.num 3000)⟩ ∧
    (Json.str "oops").isObj = false ∧
    bodyWithMessage.isObj = true :=
  ⟨rfl, rfl, rfl⟩

/-- Key counts are additive over header-list concatenation. -/
theorem countKey_append (hs₁ hs₂ : List (String × String)) (k : String) :
    ApiClient.countKey (hs₁ ++ hs₂) k =
      ApiClient.countKey hs₁ k + ApiClient.countKey hs₂ k := by
  simp [ApiClient.countKey, List.filter_append]

/-- Key count of a singleton header list. -/
theorem countKey_single (name s k : String) :
    ApiClient.countKey [(name, s)] k = if name = k then 1 else 0 := by
  by_cases h : name = k <;> simp [ApiClient.countKey, h]

/-- Effect of one conditional header update on a key count: one header is
added exactly when the credential is truthy and the names coincide. -/
theorem countKey_addIfTruthy (hs : List (String × String)) (name : String)
    (v : Option String) (k : String) :
    ApiClient.countKey (ApiClient.addIfTruthy hs name v) k =
      ApiClient.countKey hs k +
        (if strTruthy v = true ∧ name = k then 1 else 0) := by
  rcases v with _ | s
  · simp [ApiClient.addIfTruthy, strTruthy]
  by_cases he : s.isEmpty <;> by_cases hk : name = k <;>
    simp [ApiClient.addIfTruthy, strTruthy, he, hk, countKey_append,
      countKey_single]

/-- Conditional header updates preserve existing headers. -/
theorem mem_addIfTruthy (hs : List (String × String)) (name : String)
    (v : Option String) (x : String × String) (h : x ∈ hs) :
    x ∈ ApiClient.addIfTruthy hs name v := by
  rcases v with _ | s
  · exact h
  by_cases he : s.isEmpty
  · simpa [ApiClient.addIfTruthy, he] using h
  · simp [ApiClient.addIfTruthy, he]
    exact Or.inl h

/-- A truthy credential's own header is added by its update. -/
theorem self_mem_addIfTruthy (hs : List (String × String)) (name s : String)
    (hne : s.isEmpty = false) :
    (name, s) ∈ ApiClient.addIfTruthy hs name (some s) := by
  simp [ApiClient.addIfTruthy, hne]

/-- C9: the header map built at construction always contains the fixed
base headers (`Accept`, `Content-Type`, `Cache-Control`, the signature,
terminal-id and content-language headers); each optional credential
supplied — a non-empty value, matching the source's truthiness test —
contributes exactly one corresponding header carrying its value, and an
omitted credential contributes no header. -/
theorem c9_headers (signature terminal_id content_language : String)
    (mat fp ak : Option String) (hs : List (String × String))
    (hhs : hs = ApiClient.buildHeaders signature terminal_id content_language
      mat fp ak) :
    ("X-Signature", signature) ∈ hs ∧
    ("X-Terminal-Id", terminal_id) ∈ hs ∧
    ("Content-Language", content_language) ∈ hs ∧
    ("Accept", "application/json") ∈ hs ∧
    ("Cache-Control", "no-cache") ∈ hs ∧
    ("Content-Type", "application/json") ∈ hs ∧
    ApiClient.countKey hs "X-Merchant-Access-Token" =
      (if strTruthy mat = true then 1 else 0) ∧
    ApiClient.countKey hs "X-Fingerprint" =
      (if strTruthy fp = true then 1 else 0) ∧
    ApiClient.countKey hs "X-API-Key" =
      (if strTruthy ak = true then 1 else 0) ∧
    (∀ v, mat = some v → v.isEmpty = false →
      ("X-Merchant-Access-Token", v) ∈ hs) ∧
    (∀ v, fp = some v → v.isEmpty = false → ("X-Fingerprint", v) ∈ hs) ∧
    (∀ v, ak = some v → v.isEmpty = false → ("X-API-Key", v) ∈ hs) := by
  subst hhs
  unfold ApiClient.buildHeaders
  refine ⟨?_, ?_, ?_, ?_, ?_, ?_, ?_, ?_, ?_, ?_, ?_, ?_⟩
  · exact mem_addIfTruthy _ _ _ _ (mem_addIfTruthy _ _ _ _
      (mem_addIfTruthy _ _ _ _ (by simp [ApiClient.baseHeaders])))
  · exact mem_addIfTruthy _ _ _ _ (mem_addIfTruthy _ _ _ _
      (mem_addIfTruthy _ _ _ _ (by simp [ApiClient.baseHeaders])))
  · exact mem_addIfTruthy _ _ _ _ (mem_addIfTruthy _ _ _ _
      (mem_addIfTruthy _ _ _ _ (by simp [ApiClient.baseHeaders])))
  · exact mem_addIfTruthy _ _ _ _ (mem_addIfTruthy _ _ _ _
      (mem_addIfTruthy _ _ _ _ (by simp [ApiClient.baseHeaders])))
  · exact mem_addIfTruthy _ _ _ _ (mem_addIfTruthy _ _ _ _
      (mem_addIfTruthy _ _ _ _ (by simp [ApiClient.baseHeaders])))
  · exact mem_addIfTruthy _ _ _ _ (mem_addIfTruthy _ _ _ _
      (mem_addIfTruthy _ _ _ _ (by simp [ApiClient.baseHeaders])))
  · rw [countKey_addIfTruthy, countKey_addIfTruthy, countKey_addIfTruthy]
    simp [ApiClient.countKey, ApiClient.baseHeaders]
  · rw [countKey_addIfTruthy, countKey_addIfTruthy, countKey_addIfTruthy]
    simp [ApiClient.countKey, ApiClient.baseHeaders]
  · rw [countKey_addIfTruthy, countKey_addIfTruthy, countKey_addIfTruthy]
    simp [ApiClient.countKey, ApiClient.baseHeaders]
  · intro v hv hne
    subst hv
    exact mem_addIfTruthy _ _ _ _ (mem_addIfTruthy _ _ _ _
      (self_mem_addIfTruthy _ _ _ hne))
  · intro v hv hne
    subst hv
    exact mem_addIfTruthy _ _ _ _ (self_mem_addIfTruthy _ _ _ hne)
  · intro v hv hne
    subst hv
    exact self_mem_addIfTruthy _ _ _ hne

/-- C9 witness: with a merchant token and an API key supplied and the
fingerprint omitted, the built headers carry the token header, exactly
one merchant-token header, and no fingerprint header. -/
theorem c9_witness :
    ("X-Merchant-Access-Token", "tok") ∈
        ApiClient.buildHeaders "sig" "tid" "ru-RU" (some "tok") none
          (some "key") ∧
    ApiClient.countKey (ApiClient.buildHeaders "sig" "tid" "ru-RU"
        (some "tok") none (some "key")) "X-Merchant-Access-Token" = 1 ∧
    ApiClient.countKey (ApiClient.buildHeaders "sig" "tid" "ru-RU"
        (some "tok") none (some "key")) "X-Fingerprint" = 0 := by
  obtain ⟨-, -, -, -, -, -, h7, h8, -, h10, -, -⟩ :=
    c9_headers "sig" "tid" "ru-RU" (some "tok") none (some "key") _ rfl
  exact ⟨h10 "tok" rfl rfl, by simpa using h7, by simpa using h8⟩

/-- C10: `close()` delegates to the transport session's `close`, which is
total (never raises) and callable with no prior request; a second call is
a no-op leaving the session state exactly as after the first, and the
session ends up closed. -/
theorem c10_close_idempotent :
    (∀ s : Session, closeClient (closeClient s) = closeClient s) ∧
    (∀ s : Session, (closeClient s).closed = true) :=
  ⟨fun _ => rfl, fun _ => rfl⟩

end Uzum
